import Mathlib

/-!
Shallow embedding of `src/contentScripts/views/App.vue` from the
video-control-vue repository: a content script that discovers video
elements on a page (including same-origin iframes), keeps a selected
index, and routes keyboard events through a list of plugins.

Each Lean definition below is translated from the corresponding
TypeScript function in App.vue; comments cite the source lines.
-/

namespace VideoControl

/-- A discovered `HTMLVideoElement`: for the discovery/selection logic the
only attribute the code reads is `src` (a string; the empty string is the
JS-falsy case filtered out by discovery). -/
structure VideoElem where
  src : String
deriving DecidableEq, Repr

/-- The reactive state of the component (App.vue lines 30-31):
`videoElements = ref<HTMLVideoElement[]>([])` and
`videoSelectedIndex = ref(0)`. -/
structure AppState where
  videoElements : List VideoElem
  videoSelectedIndex : Nat
deriving DecidableEq, Repr

/-- App.vue line 34:
`const video = computed(() => videoElements.value[videoSelectedIndex.value])`.
JS array indexing out of range yields `undefined`, modelled as `none`. -/
def video (st : AppState) : Option VideoElem :=
  st.videoElements.get? st.videoSelectedIndex

/-- The discovery-completion callback installed by `init` (App.vue lines
46-53): replace the list, then
`if (videoElements.value.length && !video.value) videoSelectedIndex.value = 0`.
Note both conditions are evaluated against the NEW list. -/
def discoveryUpdate (st : AppState) (newList : List VideoElem) : AppState :=
  let st1 : AppState := { st with videoElements := newList }
  if st1.videoElements.length != 0 && (video st1).isNone then
    { st1 with videoSelectedIndex := 0 }
  else
    st1

/-- The fields of a `KeyboardEvent` read by `shouldMapKey` (App.vue lines
151-166). `targetTagName` is `(event.target as Element)?.tagName`; `none`
covers a null target or a target without a `tagName`. -/
structure KeyboardEvent where
  targetTagName : Option String
  metaKey : Bool
  altKey : Bool
  ctrlKey : Bool
deriving DecidableEq, Repr

/-- App.vue lines 152-157: the first check of `shouldMapKey`,
`['input', 'textarea'].includes((event.target as Element)?.tagName?.toLowerCase())`.
In JS a missing tag gives `undefined`, and `includes(undefined)` is false. -/
def isTextEntryTarget (ev : KeyboardEvent) : Bool :=
  match ev.targetTagName with
  | some t => ["input", "textarea"].contains t.toLower
  | none => false

/-- App.vue lines 151-166, `shouldMapKey`: reject text-entry targets, then
events with a command/alt/control modifier, then states with no active
video (`!video.value`); otherwise accept. -/
def shouldMapKey (st : AppState) (ev : KeyboardEvent) : Bool :=
  if isTextEntryTarget ev then
    false
  else if ev.metaKey || ev.altKey || ev.ctrlKey then
    false
  else if (video st).isNone then
    false
  else
    true

/-- The context object `{ event, video: video.value, toast }` passed to each
plugin handler (App.vue lines 70-72). The toast is an opaque capability and
carries no information the router reads, so it is omitted. -/
structure KeyContext where
  event : KeyboardEvent
  video : Option VideoElem

/-- Build the context from the current state, as the listener does at
dispatch time. -/
def mkCtx (st : AppState) (ev : KeyboardEvent) : KeyContext :=
  { event := ev, video := video st }

/-- A plugin as the router sees it (`Plugin` in `../types`): an `onKeyUp`
and an `onKeyDown` handler, each returning the "I consumed this" boolean.
The concrete plugins live outside App.vue, so handlers are arbitrary
functions here. -/
structure PluginModel where
  onKeyUp : KeyContext → Bool
  onKeyDown : KeyContext → Bool

/-- The two event directions `listenKeyEvent` is installed for
(App.vue lines 55-56). -/
inductive KeyEventType where
  | keyup
  | keydown
deriving DecidableEq, Repr

/-- App.vue lines 60-63, `fnMap`: picks the plugin method for the event
direction. -/
def fnMap (t : KeyEventType) (p : PluginModel) : KeyContext → Bool :=
  match t with
  | .keyup => p.onKeyUp
  | .keydown => p.onKeyDown

/-- The dispatch loop of App.vue lines 68-73:
`let ret = false; plugins.forEach((plugin) => { ret ||= plugin[fnMap[type]]({...}) })`.
JS `ret ||= e` is `ret || (ret = e)`: when `ret` is already true the
right-hand side is NOT evaluated, so the plugin handler is NOT invoked.
Returns the final `ret` together with one flag per plugin recording whether
that plugin's handler was invoked. -/
def dispatchGo (t : KeyEventType) (ctx : KeyContext) :
    List PluginModel → Bool → Bool × List Bool
  | [], ret => (ret, [])
  | p :: ps, ret =>
    if ret then
      let rest := dispatchGo t ctx ps ret
      (rest.1, false :: rest.2)
    else
      let r := fnMap t p ctx
      let rest := dispatchGo t ctx ps r
      (rest.1, true :: rest.2)

/-- The observable outcome of one run of the keyboard listener: which
plugins had their handler invoked (flag list aligned with the plugin
list), and whether `event.stopImmediatePropagation()` /
`event.preventDefault()` were called (App.vue lines 75-79). -/
structure EventOutcome where
  invokedFlags : List Bool
  stopImmediatePropagationCalled : Bool
  preventDefaultCalled : Bool
deriving DecidableEq, Repr

/-- The listener body installed by `listenKeyEvent` (App.vue lines 64-79):
if `shouldMapKey` rejects, return with no plugin invoked and the event
untouched; otherwise run the dispatch loop and, when the combined `ret` is
true, call `stopImmediatePropagation` and `preventDefault`. -/
def keyEventListener (plugins : List PluginModel) (t : KeyEventType)
    (st : AppState) (ev : KeyboardEvent) : EventOutcome :=
  if shouldMapKey st ev then
    let d := dispatchGo t (mkCtx st ev) plugins false
    { invokedFlags := d.2
      stopImmediatePropagationCalled := d.1
      preventDefaultCalled := d.1 }
  else
    { invokedFlags := List.replicate plugins.length false
      stopImmediatePropagationCalled := false
      preventDefaultCalled := false }

/-- A DOM node as seen by the mutation watcher. An element node carries its
`nodeName` (uppercase tag in HTML documents), its `className` string, and
its child nodes; any non-element node (text, comment, ...) is `nonElement`.
-/
inductive DomNode where
  | element (nodeName : String) (className : String) (children : List DomNode)
  | nonElement

mutual

/-- Does this node (itself included) carry the given element `nodeName`
anywhere in its subtree? -/
def nodeHasTagInTree (tag : String) : DomNode → Bool
  | .element name _ children => name == tag || listHasTagInTree tag children
  | .nonElement => false

/-- `nodeHasTagInTree` over a list of sibling nodes. -/
def listHasTagInTree (tag : String) : List DomNode → Bool
  | [] => false
  | n :: ns => nodeHasTagInTree tag n || listHasTagInTree tag ns

end

/-- `node.querySelector(sel)` with a bare tag selector finds only
DESCENDANTS of `node`, never the node itself; non-element nodes have no
`querySelector`. The argument is the element `nodeName` the selector
matches (uppercase in an HTML document, e.g. the selector `iframe`
matches nodeName "IFRAME"). Returns whether a match exists
(`querySelector` result is non-null). -/
def querySelectorFindsTag (tag : String) : DomNode → Bool
  | .element _ _ children => listHasTagInTree tag children
  | .nonElement => false

/-- Case-insensitive substring test over char lists: the model of the
regular-expression test `/video/i.test(s)` once both sides are lowered. -/
def charListContainsSub (pat : List Char) : List Char → Bool
  | [] => pat.isEmpty
  | c :: cs => pat.isPrefixOf (c :: cs) || charListContainsSub pat cs

/-- App.vue line 120: `/video/i.test(className)` — the class name contains
the substring "video", case-insensitively (the pattern is already
lower-case, so lowering the class name character-wise suffices). -/
def classNameSuggestsVideo (className : String) : Bool :=
  charListContainsSub "video".toList (className.toList.map Char.toLower)

/-- App.vue lines 114-126, `mayContainsVideoElement`: false for non-element
nodes; then true if the node IS a video element, or its class name matches
`/video/i`, or `querySelector('iframe')` finds a descendant iframe;
otherwise false. -/
def mayContainsVideoElement (node : DomNode) : Bool :=
  match node with
  | .nonElement => false
  | .element name className _ =>
    if name == "VIDEO" then true
    else if classNameSuggestsVideo className then true
    else if querySelectorFindsTag "IFRAME" node then true
    else false

/-- One `MutationRecord` of the observer callback: its `addedNodes` and
`removedNodes` lists. -/
structure MutationRecord where
  addedNodes : List DomNode
  removedNodes : List DomNode

/-- The body of the `MutationObserver` callback for one record (App.vue
lines 90-101): for each added node passing `mayContainsVideoElement`,
`setTimeout(onVideoUpdate, 1000)`; for each removed node passing it,
`setTimeout(onVideoUpdate)` (delay 0). Returns the list of scheduled
re-discovery delays, in scheduling order. -/
def processMutationRecord (m : MutationRecord) : List Nat :=
  (m.addedNodes.filter mayContainsVideoElement).map (fun _ => 1000)
    ++ (m.removedNodes.filter mayContainsVideoElement).map (fun _ => 0)

/-- The whole observer callback (App.vue lines 89-102): `mutations.forEach`
over the batch. -/
def observerCallback (mutations : List MutationRecord) : List Nat :=
  (mutations.map processMutationRecord).flatten

/-- The side effects `listenVideoUpdate` performs once at install time
(App.vue lines 88-112), in order. -/
inductive WatcherEffect where
  | observeBodySubtreeChildList
  | scheduleUpdate (delayMs : Nat)
  | addHashchangeListenerInvokingUpdateDirectly
deriving DecidableEq, Repr

/-- App.vue lines 104-111: `observer.observe(document.body, {subtree,
childList})`, then `setTimeout(onVideoUpdate)` (startup discovery, delay 0),
then `window.addEventListener('hashchange', onVideoUpdate)` (the update
runs directly, with no timer, on every hash change). -/
def listenVideoUpdateEffects : List WatcherEffect :=
  [.observeBodySubtreeChildList,
   .scheduleUpdate 0,
   .addHashchangeListenerInvokingUpdateDirectly]

/-- What `frame.document` yields for a given frame: `noDoc` when the
document reference is falsy (the `if (frame.document)` guard fails),
`denied` when reading the property throws a cross-origin SecurityError,
`ok vids` the accessible case, with the document's video elements listed in
document order (the `querySelectorAll('video')` result, before the `src`
filter). -/
inductive DocAccess where
  | noDoc
  | denied
  | ok (videos : List VideoElem)

/-- A window/frame: its document access outcome plus its child frames in
document order (`frame.frames`; reading `frames` and `frames.length` is
permitted even cross-origin, so it never throws). -/
inductive Win where
  | mk (doc : DocAccess) (frames : List Win)

/-- The child frames of a window. -/
def Win.framesOf : Win → List Win
  | .mk _ fs => fs

/-- The document access outcome of a window. -/
def Win.docOf : Win → DocAccess
  | .mk d _ => d

/-- The raw `querySelectorAll('video')` list of a document access, empty
when there is no accessible document. -/
def docVideosOf : DocAccess → List VideoElem
  | .ok vids => vids
  | _ => []

mutual

/-- App.vue lines 128-149, `getAllValidVideoElements(frame)`: push the
frame's own `querySelectorAll('video')` results that have a truthy `src`
(the try/catch around the document access is handled in
`getAllValidVideoElementsE` below; a denied or absent document contributes
nothing), then recurse into `frame.frames` in order. -/
def getAllValidVideoElements : Win → List VideoElem
  | .mk doc frames =>
    (docVideosOf doc).filter (fun v => v.src != "") ++ discoverFrames frames

/-- The `frame.frames` loop of `getAllValidVideoElements` (App.vue lines
143-147): append each child frame's own discovery result, in order. -/
def discoverFrames : List Win → List VideoElem
  | [] => []
  | f :: fs => getAllValidVideoElements f ++ discoverFrames fs

end

/-- The JS exceptions that can arise in discovery: the SecurityError thrown
by a cross-origin `frame.document` read. -/
inductive JsError where
  | securityError
deriving DecidableEq, Repr

/-- Reading `frame.document` with exception propagation made explicit. -/
def readFrameDocument : DocAccess → Except JsError (Option (List VideoElem))
  | .denied => .error .securityError
  | .noDoc => .ok none
  | .ok vids => .ok (some vids)

mutual

/-- `getAllValidVideoElements` with JS exception flow made explicit: the
`try { if (frame.document) ... } catch (error) { console.info(...) }` of
App.vue lines 131-141 catches the SecurityError per frame and contributes
no elements; the recursion over `frame.frames` sits OUTSIDE the try, so an
error escaping a recursive call would propagate (`Except.error`). -/
def getAllValidVideoElementsE : Win → Except JsError (List VideoElem)
  | .mk doc frames =>
    let own : List VideoElem :=
      match readFrameDocument doc with
      | .error _ => []
      | .ok none => []
      | .ok (some vids) => vids.filter (fun v => v.src != "")
    match discoverFramesE frames with
    | .error e => .error e
    | .ok rest => .ok (own ++ rest)

/-- The `frame.frames` loop with explicit exception flow. -/
def discoverFramesE : List Win → Except JsError (List VideoElem)
  | [] => .ok []
  | f :: fs =>
    match getAllValidVideoElementsE f with
    | .error e => .error e
    | .ok l =>
      match discoverFramesE fs with
      | .error e => .error e
      | .ok ls => .ok (l ++ ls)

end

mutual

/-- A frame is cross-origin (from the script's origin) when every document
access in its subtree is denied. -/
def crossOriginWin : Win → Bool
  | .mk doc frames =>
    (match doc with | .denied => true | _ => false) && crossOriginFrames frames

/-- `crossOriginWin` over a frame list. -/
def crossOriginFrames : List Win → Bool
  | [] => true
  | f :: fs => crossOriginWin f && crossOriginFrames fs

end

/-- The class name of the picker's outline overlay div (App.vue line 174). -/
def outlineClassName : String := "video-controller-video-outline"

/-- App.vue lines 168-189, `selectVideo`, acting on the hovered video's
parent element, modelled as the ordered list of the parent's element
children's class names (`firstElementChild` is the head); `none` models a
video with no parent element, where both the guard read and the final
`prepend` are optional-chained no-ops. If the parent's first element child
already has the outline class, return; otherwise prepend the outline div. -/
def selectVideoDom (parent : Option (List String)) : Option (List String) :=
  match parent with
  | none => none
  | some cs =>
    if cs.head? = some outlineClassName then some cs
    else some (outlineClassName :: cs)

/-- App.vue lines 191-197, `unselectVideo`: if the parent's first element
child is NOT the outline div, return; otherwise remove that first child. -/
def unselectVideoDom (parent : Option (List String)) : Option (List String) :=
  match parent with
  | none => none
  | some cs =>
    if cs.head? ≠ some outlineClassName then some cs
    else some cs.tail

/-- The operations that touch the selection state after initialisation: a
discovery rebuild (the `listenVideoUpdate` callback) or a selection change
from the picker's radio input (`v-model="videoSelectedIndex"`). -/
inductive Op where
  | rebuild (newList : List VideoElem)
  | select (i : Nat)

/-- Apply one operation to the state. -/
def applyOp (st : AppState) : Op → AppState
  | .rebuild l => discoveryUpdate st l
  | .select i => { st with videoSelectedIndex := i }

/-- Run a sequence of rebuilds and selection changes. -/
def runOps (st : AppState) (ops : List Op) : AppState :=
  ops.foldl applyOp st

/-! ### Concrete sample values used by witnesses and counterexamples -/

/-- A sample discovered video. -/
def sampleVideoA : VideoElem := { src := "a" }

/-- A sample discovered video. -/
def sampleVideoB : VideoElem := { src := "b" }

/-- A sample discovered video. -/
def sampleVideoC : VideoElem := { src := "c" }

/-- A sample discovered video. -/
def sampleVideoD : VideoElem := { src := "d" }

/-- A plugin whose handlers always claim the key. -/
def claimingPlugin : PluginModel :=
  { onKeyUp := fun _ => true, onKeyDown := fun _ => true }

/-- A state with one video selected in range, so `shouldMapKey` accepts. -/
def qualifyingState : AppState :=
  { videoElements := [sampleVideoA], videoSelectedIndex := 0 }

/-- The empty initial state (App.vue lines 30-31). -/
def stEmpty : AppState := { videoElements := [], videoSelectedIndex := 0 }

/-- A key event with no modifier and a non-text target. -/
def plainKeyEvent : KeyboardEvent :=
  { targetTagName := none, metaKey := false, altKey := false, ctrlKey := false }

/-- A key event with the control modifier held. -/
def ctrlKeyEvent : KeyboardEvent :=
  { targetTagName := none, metaKey := false, altKey := false, ctrlKey := true }

/-- A state whose selected index (3) is in range of its four-element list. -/
def staleIndexState : AppState :=
  { videoElements := [sampleVideoA, sampleVideoB, sampleVideoC, sampleVideoD]
    videoSelectedIndex := 3 }

/-- A frame whose document access is denied and that has no child frames. -/
def crossOriginFrame : Win := Win.mk DocAccess.denied []

/-! ### Helper lemmas -/

theorem dispatchGo_true (t : KeyEventType) (ctx : KeyContext) :
    ∀ ps : List PluginModel,
      dispatchGo t ctx ps true = (true, List.replicate ps.length false)
  | [] => rfl
  | p :: ps => by
    simp [dispatchGo, dispatchGo_true t ctx ps, List.replicate]

theorem dispatchGo_false_fst (t : KeyEventType) (ctx : KeyContext) :
    ∀ ps : List PluginModel,
      (dispatchGo t ctx ps false).1 = ps.any (fun p => fnMap t p ctx)
  | [] => rfl
  | p :: ps => by
    by_cases h : fnMap t p ctx = true
    · simp [dispatchGo, h, dispatchGo_true t ctx ps]
    · simp only [Bool.not_eq_true] at h
      simp [dispatchGo, h, dispatchGo_false_fst t ctx ps]

theorem dispatchGo_false_snd (t : KeyEventType) (ctx : KeyContext) :
    ∀ ps : List PluginModel,
      (dispatchGo t ctx ps false).2
        = List.replicate
            (min (ps.findIdx (fun p => fnMap t p ctx) + 1) ps.length) true
          ++ List.replicate
            (ps.length - (ps.findIdx (fun p => fnMap t p ctx) + 1)) false
  | [] => rfl
  | p :: ps => by
    by_cases h : fnMap t p ctx = true
    · simp [dispatchGo, h, dispatchGo_true t ctx ps, List.findIdx_cons,
        List.replicate]
    · simp only [Bool.not_eq_true] at h
      have ih := dispatchGo_false_snd t ctx ps
      simp only [dispatchGo, h, Bool.false_eq_true, if_false, ih,
        List.findIdx_cons, cond_false, List.length_cons]
      rw [Nat.succ_min_succ]
      simp [List.replicate, Nat.succ_sub_succ]

mutual

theorem getAllValidVideoElementsE_ok : ∀ w : Win,
    getAllValidVideoElementsE w = Except.ok (getAllValidVideoElements w)
  | .mk doc frames => by
    have h := discoverFramesE_ok frames
    simp only [getAllValidVideoElementsE, getAllValidVideoElements, h]
    cases doc <;> simp [readFrameDocument, docVideosOf]

theorem discoverFramesE_ok : ∀ l : List Win,
    discoverFramesE l = Except.ok (discoverFrames l)
  | [] => rfl
  | f :: fs => by
    have h1 := getAllValidVideoElementsE_ok f
    have h2 := discoverFramesE_ok fs
    simp [discoverFramesE, discoverFrames, h1, h2]

end

mutual

theorem crossOrigin_discover_nil : ∀ w : Win, crossOriginWin w = true →
    getAllValidVideoElements w = []
  | .mk doc frames => by
    intro h
    simp only [crossOriginWin, Bool.and_eq_true] at h
    have h2 := crossOrigin_discoverFrames_nil frames h.2
    cases doc <;> simp_all [getAllValidVideoElements, docVideosOf]

theorem crossOrigin_discoverFrames_nil : ∀ l : List Win,
    crossOriginFrames l = true → discoverFrames l = []
  | [] => fun _ => rfl
  | f :: fs => by
    intro h
    simp only [crossOriginFrames, Bool.and_eq_true] at h
    have h1 := crossOrigin_discover_nil f h.1
    have h2 := crossOrigin_discoverFrames_nil fs h.2
    simp [discoverFrames, h1, h2]

end

mutual

theorem discover_all_src : ∀ w : Win,
    (getAllValidVideoElements w).all (fun v => v.src != "") = true
  | .mk doc frames => by
    have h := discoverFrames_all_src frames
    simp only [getAllValidVideoElements, List.all_append, h, Bool.and_true]
    exact List.all_eq_true.mpr (fun v hv => (List.mem_filter.mp hv).2)

theorem discoverFrames_all_src : ∀ l : List Win,
    (discoverFrames l).all (fun v => v.src != "") = true
  | [] => rfl
  | f :: fs => by
    have h1 := discover_all_src f
    have h2 := discoverFrames_all_src fs
    simp [discoverFrames, List.all_append, h1, h2]

end

theorem discoverFrames_eq_flatten : ∀ l : List Win,
    discoverFrames l = (l.map getAllValidVideoElements).flatten
  | [] => rfl
  | f :: fs => by
    simp [discoverFrames, discoverFrames_eq_flatten fs]

theorem processMutationRecord_count_1000 (m : MutationRecord) :
    (processMutationRecord m).count 1000
      = m.addedNodes.countP mayContainsVideoElement := by
  simp [processMutationRecord, List.count_append, List.map_const',
    List.count_replicate, List.countP_eq_length_filter, List.count_eq_countP]

theorem processMutationRecord_count_0 (m : MutationRecord) :
    (processMutationRecord m).count 0
      = m.removedNodes.countP mayContainsVideoElement := by
  simp [processMutationRecord, List.count_append, List.map_const',
    List.count_replicate, List.countP_eq_length_filter, List.count_eq_countP]

theorem processMutationRecord_delays (m : MutationRecord) :
    (processMutationRecord m).all (fun d => d == 1000 || d == 0) = true := by
  simp only [processMutationRecord, List.all_append, Bool.and_eq_true]
  refine ⟨?_, ?_⟩ <;>
    exact List.all_eq_true.mpr (fun d hd => by
      rcases List.mem_map.mp hd with ⟨n, _, hn⟩
      simp [← hn])

theorem observerCallback_count_1000 (ms : List MutationRecord) :
    (observerCallback ms).count 1000
      = (ms.map (fun m => m.addedNodes.countP mayContainsVideoElement)).sum := by
  simp [observerCallback, List.count_flatten, List.map_map, Function.comp_def,
    processMutationRecord_count_1000]

theorem observerCallback_count_0 (ms : List MutationRecord) :
    (observerCallback ms).count 0
      = (ms.map (fun m => m.removedNodes.countP mayContainsVideoElement)).sum := by
  simp [observerCallback, List.count_flatten, List.map_map, Function.comp_def,
    processMutationRecord_count_0]

theorem observerCallback_delays (ms : List MutationRecord) :
    (observerCallback ms).all (fun d => d == 1000 || d == 0) = true := by
  induction ms with
  | nil => rfl
  | cons m ms ih =>
    simp only [observerCallback, List.map_cons, List.flatten_cons,
      List.all_append, Bool.and_eq_true] at ih ⊢
    exact ⟨processMutationRecord_delays m, ih⟩

theorem discoveryUpdate_characterization (st : AppState)
    (newList : List VideoElem) :
    discoveryUpdate st newList =
      { videoElements := newList
        videoSelectedIndex :=
          if newList ≠ [] ∧ newList.length ≤ st.videoSelectedIndex then 0
          else st.videoSelectedIndex } := by
  simp only [discoveryUpdate, video]
  by_cases h1 : newList = []
  · subst h1
    simp
  · by_cases h2 : newList.length ≤ st.videoSelectedIndex
    · have hn : newList.get? st.videoSelectedIndex = none :=
        List.get?_eq_none.mpr h2
      have hlen : (newList.length != 0) = true := by
        simpa [bne_iff_ne, Ne, List.length_eq_zero] using h1
      simp [hn, hlen, h1, h2]
    · have hs : ∃ v, newList.get? st.videoSelectedIndex = some v := by
        rcases Nat.lt_of_not_le h2 with h
        exact ⟨newList.get ⟨st.videoSelectedIndex, Nat.lt_of_not_le h2⟩,
          List.get?_eq_get (Nat.lt_of_not_le h2)⟩
      rcases hs with ⟨v, hv⟩
      simp [hv, h1, h2]

/-! ### Claim theorems -/

/-- C1 counterexample: a qualifying key event dispatched to two plugins
that both claim every key. The claim says every registered plugin's handler
is invoked exactly once regardless of earlier returns, but the second
plugin's handler is never invoked (`ret ||= ...` short-circuits once the
first plugin returns true): the invocation flags are `[true, false]`, not
`[true, true]`. -/
theorem C1_router_totality_counterexample :
    shouldMapKey qualifyingState plainKeyEvent = true
    ∧ (keyEventListener [claimingPlugin, claimingPlugin] KeyEventType.keydown
        qualifyingState plainKeyEvent).invokedFlags = [true, false]
    ∧ [true, false] ≠ List.replicate
        ([claimingPlugin, claimingPlugin] : List PluginModel).length true :=
  ⟨rfl, rfl, by decide⟩

/-- C1 (amended): for every qualifying key event, the router invokes the
plugins in registration order only up to and including the first plugin
whose handler returns true — `ret ||= h(...)` short-circuits, so each
plugin before or at the first claimer is invoked exactly once and no later
plugin's handler is invoked; when no plugin claims, every plugin is invoked
exactly once. -/
theorem C1_router_dispatch_amended (plugins : List PluginModel)
    (t : KeyEventType) (st : AppState) (ev : KeyboardEvent)
    (h : shouldMapKey st ev = true) :
    (keyEventListener plugins t st ev).invokedFlags
      = List.replicate
          (min (plugins.findIdx (fun p => fnMap t p (mkCtx st ev)) + 1)
            plugins.length) true
        ++ List.replicate
          (plugins.length
            - (plugins.findIdx (fun p => fnMap t p (mkCtx st ev)) + 1)) false := by
  simp [keyEventListener, h, dispatchGo_false_snd]

/-- C1 amended witness: the amended statement instantiated at the
counterexample configuration. -/
theorem C1_router_dispatch_amended_witness :
    shouldMapKey qualifyingState plainKeyEvent = true
    ∧ (keyEventListener [claimingPlugin, claimingPlugin] KeyEventType.keydown
        qualifyingState plainKeyEvent).invokedFlags
      = List.replicate
          (min (List.findIdx
              (fun p => fnMap KeyEventType.keydown p
                (mkCtx qualifyingState plainKeyEvent))
              [claimingPlugin, claimingPlugin] + 1)
            ([claimingPlugin, claimingPlugin] : List PluginModel).length) true
        ++ List.replicate
          (([claimingPlugin, claimingPlugin] : List PluginModel).length
            - (List.findIdx
                (fun p => fnMap KeyEventType.keydown p
                  (mkCtx qualifyingState plainKeyEvent))
                [claimingPlugin, claimingPlugin] + 1)) false :=
  ⟨by decide,
   C1_router_dispatch_amended [claimingPlugin, claimingPlugin]
     KeyEventType.keydown qualifyingState plainKeyEvent (by decide)⟩

/-- C3: for every qualifying key event, `stopImmediatePropagation` and
`preventDefault` are called if and only if the combined boolean over the
plugin dispatch — the logical OR of the plugin handlers' returns — is
true; when it is false both remain uncalled and the event is untouched. -/
theorem C3_suppression_iff_or (plugins : List PluginModel)
    (t : KeyEventType) (st : AppState) (ev : KeyboardEvent)
    (h : shouldMapKey st ev = true) :
    (keyEventListener plugins t st ev).stopImmediatePropagationCalled
        = plugins.any (fun p => fnMap t p (mkCtx st ev))
    ∧ (keyEventListener plugins t st ev).preventDefaultCalled
        = plugins.any (fun p => fnMap t p (mkCtx st ev)) := by
  constructor <;> simp [keyEventListener, h, dispatchGo_false_fst]

/-- C3 witness: one always-claiming plugin on a qualifying event. -/
theorem C3_suppression_iff_or_witness :
    shouldMapKey qualifyingState plainKeyEvent = true
    ∧ ((keyEventListener [claimingPlugin] KeyEventType.keydown
          qualifyingState plainKeyEvent).stopImmediatePropagationCalled
        = ([claimingPlugin] : List PluginModel).any
            (fun p => fnMap KeyEventType.keydown p
              (mkCtx qualifyingState plainKeyEvent))
      ∧ (keyEventListener [claimingPlugin] KeyEventType.keydown
          qualifyingState plainKeyEvent).preventDefaultCalled
        = ([claimingPlugin] : List PluginModel).any
            (fun p => fnMap KeyEventType.keydown p
              (mkCtx qualifyingState plainKeyEvent))) :=
  ⟨by decide,
   C3_suppression_iff_or [claimingPlugin] KeyEventType.keydown
     qualifyingState plainKeyEvent (by decide)⟩

/-- C4: when the focused target is a text-entry field (input/textarea), or
a command/alt/control modifier is held, or there is no active video, the
listener returns before the dispatch loop: no plugin handler is invoked
and neither `stopImmediatePropagation` nor `preventDefault` is called. -/
theorem C4_eligibility_filter (plugins : List PluginModel)
    (t : KeyEventType) (st : AppState) (ev : KeyboardEvent)
    (h : isTextEntryTarget ev = true
      ∨ (ev.metaKey || ev.altKey || ev.ctrlKey) = true
      ∨ video st = none) :
    keyEventListener plugins t st ev =
      { invokedFlags := List.replicate plugins.length false
        stopImmediatePropagationCalled := false
        preventDefaultCalled := false } := by
  have hf : shouldMapKey st ev = false := by
    rcases h with h | h | h <;> simp [shouldMapKey, h]
  simp [keyEventListener, hf]

/-- C4 witness: a control-modified key event in a state with an active
video reaches no plugin and stays untouched. -/
theorem C4_eligibility_filter_witness :
    (isTextEntryTarget ctrlKeyEvent = true
      ∨ (ctrlKeyEvent.metaKey || ctrlKeyEvent.altKey || ctrlKeyEvent.ctrlKey) = true
      ∨ video qualifyingState = none)
    ∧ keyEventListener [claimingPlugin] KeyEventType.keydown
        qualifyingState ctrlKeyEvent =
      { invokedFlags :=
          List.replicate ([claimingPlugin] : List PluginModel).length false
        stopImmediatePropagationCalled := false
        preventDefaultCalled := false } :=
  ⟨Or.inr (Or.inl (by decide)),
   C4_eligibility_filter [claimingPlugin] KeyEventType.keydown
     qualifyingState ctrlKeyEvent (Or.inr (Or.inl (by decide)))⟩

/-- C2 counterexample: the previous state has a non-empty four-video list
with index 3 in range; the rebuild produces a two-video list. The claim
says SelectionIndex is reset only when the previous list was empty and is
otherwise left unchanged even if now out of range, but the code resets the
index to 0 here (the `!video.value` guard is evaluated against the NEW
list). -/
theorem C2_selection_reset_counterexample :
    staleIndexState.videoElements ≠ []
    ∧ ([sampleVideoA, sampleVideoB] : List VideoElem) ≠ []
    ∧ staleIndexState.videoSelectedIndex = 3
    ∧ (discoveryUpdate staleIndexState
        [sampleVideoA, sampleVideoB]).videoSelectedIndex = 0 := by
  decide

/-- C2 (amended): on every discovery completion the update replaces the
video list, and resets SelectionIndex to 0 exactly when the NEW list is
non-empty and the previous SelectionIndex is out of range of the new list;
in every other case (including a rebuild to an empty list) SelectionIndex
is left unchanged. -/
theorem C2_selection_reset_amended (st : AppState) (newList : List VideoElem) :
    discoveryUpdate st newList =
      { videoElements := newList
        videoSelectedIndex :=
          if newList ≠ [] ∧ newList.length ≤ st.videoSelectedIndex then 0
          else st.videoSelectedIndex } :=
  discoveryUpdate_characterization st newList

/-- C5: discovery never raises — with the JS exception flow made explicit,
`getAllValidVideoElements` always evaluates to an `ok` list (the per-frame
try/catch absorbs every SecurityError), and a fully cross-origin frame
contributes the empty list. -/
theorem C5_discovery_never_raises (w : Win) :
    getAllValidVideoElementsE w = Except.ok (getAllValidVideoElements w)
    ∧ (crossOriginWin w = true →
        getAllValidVideoElementsE w = Except.ok []) :=
  ⟨getAllValidVideoElementsE_ok w,
   fun h => by rw [getAllValidVideoElementsE_ok w, crossOrigin_discover_nil w h]⟩

/-- C5 witness: a denied frame with no children yields `ok []`. -/
theorem C5_discovery_never_raises_witness :
    crossOriginWin crossOriginFrame = true
    ∧ getAllValidVideoElementsE crossOriginFrame = Except.ok [] :=
  ⟨by decide, (C5_discovery_never_raises crossOriginFrame).2 (by decide)⟩

/-- C6: discovery returns exactly the current document's video elements
with a non-empty `src`, in document order, followed by each child frame's
own discovery result appended recursively with frames visited in document
order; every returned element has a non-empty resolved source. -/
theorem C6_discover_order_and_filter (d : DocAccess) (fs : List Win) :
    getAllValidVideoElements (Win.mk d fs)
      = (docVideosOf d).filter (fun v => v.src != "")
          ++ (fs.map getAllValidVideoElements).flatten
    ∧ (getAllValidVideoElements (Win.mk d fs)).all
        (fun v => v.src != "") = true := by
  refine ⟨?_, discover_all_src _⟩
  simp [getAllValidVideoElements, discoverFrames_eq_flatten]

/-- C7: for every observed mutation batch the observer callback schedules
exactly one 1000 ms re-discovery per added node satisfying
`mayContainsVideoElement` and exactly one zero-delay re-discovery per
removed node satisfying it (every scheduled delay is 1000 or 0); and
`listenVideoUpdate` performs one immediate scheduled discovery at startup
and installs a hashchange listener that invokes the update directly. -/
theorem C7_watcher_schedules (ms : List MutationRecord) :
    (observerCallback ms).count 1000
        = (ms.map (fun m => m.addedNodes.countP mayContainsVideoElement)).sum
    ∧ (observerCallback ms).count 0
        = (ms.map (fun m => m.removedNodes.countP mayContainsVideoElement)).sum
    ∧ (observerCallback ms).all (fun d => d == 1000 || d == 0) = true
    ∧ WatcherEffect.scheduleUpdate 0 ∈ listenVideoUpdateEffects
    ∧ WatcherEffect.addHashchangeListenerInvokingUpdateDirectly
        ∈ listenVideoUpdateEffects :=
  ⟨observerCallback_count_1000 ms, observerCallback_count_0 ms,
   observerCallback_delays ms,
   by simp [listenVideoUpdateEffects],
   by simp [listenVideoUpdateEffects]⟩

/-- C8: after any sequence of discovery rebuilds and selection changes, the
derived active video is the list entry at SelectionIndex when that index is
in range, and is explicitly absent (`none`) when it is out of range — the
lookup never goes out of bounds. -/
theorem C8_active_video_safety (st0 : AppState) (ops : List Op) :
    ((runOps st0 ops).videoSelectedIndex
        < (runOps st0 ops).videoElements.length →
      ∃ hv : (runOps st0 ops).videoSelectedIndex
          < (runOps st0 ops).videoElements.length,
        video (runOps st0 ops)
          = some ((runOps st0 ops).videoElements.get
              ⟨(runOps st0 ops).videoSelectedIndex, hv⟩)
        ∧ (runOps st0 ops).videoElements.get
              ⟨(runOps st0 ops).videoSelectedIndex, hv⟩
            ∈ (runOps st0 ops).videoElements)
    ∧ ((runOps st0 ops).videoElements.length
          ≤ (runOps st0 ops).videoSelectedIndex →
        video (runOps st0 ops) = none) := by
  constructor
  · intro h
    exact ⟨h, List.get?_eq_get h, List.get_mem _ _ _⟩
  · intro h
    exact List.get?_eq_none.mpr h

/-- C8 witness: a rebuild from the empty state yields an in-range active
video; a subsequent selection of index 5 over the one-element list yields
an absent active video. -/
theorem C8_active_video_safety_witness :
    (∃ hv : (runOps stEmpty [Op.rebuild [sampleVideoA]]).videoSelectedIndex
        < (runOps stEmpty [Op.rebuild [sampleVideoA]]).videoElements.length,
      video (runOps stEmpty [Op.rebuild [sampleVideoA]])
        = some ((runOps stEmpty [Op.rebuild [sampleVideoA]]).videoElements.get
            ⟨(runOps stEmpty [Op.rebuild [sampleVideoA]]).videoSelectedIndex, hv⟩)
      ∧ (runOps stEmpty [Op.rebuild [sampleVideoA]]).videoElements.get
            ⟨(runOps stEmpty [Op.rebuild [sampleVideoA]]).videoSelectedIndex, hv⟩
          ∈ (runOps stEmpty [Op.rebuild [sampleVideoA]]).videoElements)
    ∧ video (runOps stEmpty [Op.rebuild [sampleVideoA], Op.select 5]) = none :=
  ⟨(C8_active_video_safety stEmpty [Op.rebuild [sampleVideoA]]).1 (by decide),
   (C8_active_video_safety stEmpty
     [Op.rebuild [sampleVideoA], Op.select 5]).2 (by decide)⟩

/-- C9: the outline bookkeeping is idempotent — inserting the outline twice
equals inserting it once; inserting when the parent's first element child
already is the outline leaves the children unchanged; and removing when no
outline is present (the first element child is not the outline) is a
no-op. -/
theorem C9_outline_bookkeeping (parent : Option (List String))
    (cs : List String) :
    selectVideoDom (selectVideoDom parent) = selectVideoDom parent
    ∧ (cs.head? = some outlineClassName → selectVideoDom (some cs) = some cs)
    ∧ (cs.head? ≠ some outlineClassName →
        unselectVideoDom (some cs) = some cs) := by
  refine ⟨?_, ?_, ?_⟩
  · match parent with
    | none => rfl
    | some cs2 =>
      by_cases h : cs2.head? = some outlineClassName
      · simp [selectVideoDom, h]
      · simp [selectVideoDom, h]
  · intro h
    simp [selectVideoDom, h]
  · intro h
    simp [unselectVideoDom, h]

/-- C9 witness: double insert on a plain parent equals single insert;
insert is a no-op when the outline is already first; remove is a no-op
when no outline is present. -/
theorem C9_outline_bookkeeping_witness :
    selectVideoDom (selectVideoDom (some ["x"])) = selectVideoDom (some ["x"])
    ∧ selectVideoDom (some [outlineClassName]) = some [outlineClassName]
    ∧ unselectVideoDom (some ["x"]) = some ["x"] :=
  ⟨(C9_outline_bookkeeping (some ["x"]) []).1,
   (C9_outline_bookkeeping none [outlineClassName]).2.1 (by decide),
   (C9_outline_bookkeeping none ["x"]).2.2 (by decide)⟩

/-- C10: the plausibility predicate is false on every non-element node, and
false on every element that is not itself a VIDEO element, whose class name
does not match `/video/i`, and that has no descendant IFRAME — with no
assumption about video elements in its subtree — and adding such a node
schedules no re-discovery. -/
theorem C10_wrapper_predicate_conservative (name className : String)
    (children : List DomNode)
    (h1 : name ≠ "VIDEO")
    (h2 : classNameSuggestsVideo className = false)
    (h3 : listHasTagInTree "IFRAME" children = false) :
    mayContainsVideoElement DomNode.nonElement = false
    ∧ mayContainsVideoElement (DomNode.element name className children) = false
    ∧ processMutationRecord
        { addedNodes := [DomNode.element name className children]
          removedNodes := [] } = [] := by
  have hm : mayContainsVideoElement
      (DomNode.element name className children) = false := by
    simp [mayContainsVideoElement, querySelectorFindsTag, h1, h2, h3]
  exact ⟨rfl, hm, by simp [processMutationRecord, hm]⟩

/-- C10 witness: a DIV wrapper whose subtree DOES contain a video element
but no iframe, with a class name not matching `/video/i`: the predicate is
false and its addition schedules nothing. -/
theorem C10_wrapper_predicate_conservative_witness :
    nodeHasTagInTree "VIDEO"
        (DomNode.element "DIV" "wrapper"
          [DomNode.element "VIDEO" "player" []]) = true
    ∧ mayContainsVideoElement
        (DomNode.element "DIV" "wrapper"
          [DomNode.element "VIDEO" "player" []]) = false
    ∧ processMutationRecord
        { addedNodes :=
            [DomNode.element "DIV" "wrapper"
              [DomNode.element "VIDEO" "player" []]]
          removedNodes := [] } = [] :=
  ⟨by decide,
   (C10_wrapper_predicate_conservative "DIV" "wrapper"
     [DomNode.element "VIDEO" "player" []]
     (by decide) (by decide) (by decide)).2.1,
   (C10_wrapper_predicate_conservative "DIV" "wrapper"
     [DomNode.element "VIDEO" "player" []]
     (by decide) (by decide) (by decide)).2.2⟩

end VideoControl
